import Mathlib

/-
Verification of the phidata application-definition layer.

This file gives a shallow embedding of the parts of the repository that the
claims concern:

  * `phidata/app/redis/redis.py` — the `Redis` App: its argument record
    (`RedisArgs`), the env/secrets merge, the Docker resource-group build
    (`get_docker_rg`), the Kubernetes resource-group build (`get_k8s_rg`)
    including volume dispatch and node-port validation, and the
    connection-string helpers.
  * `phidata/infra/k8s/create/core/v1/persistent_volume.py` —
    `CreatePersistentVolume.create`.
  * `phidata/asset/file/file.py` — `File.write_pandas_df`.

Python dictionaries are modelled as insertion-ordered association lists over
`String` (`Dict` below): assignment replaces the value of an existing key in
place and appends otherwise, and `update` folds assignment over the second
mapping, exactly as CPython does.  File reads are modelled by an explicit
file-system valuation `FileSys` mapping a path to the parsed YAML document
(a mapping, or something else, or nothing when the path does not exist or is
not a regular file).  In-place mutation of `self.args` performed by
`get_k8s_rg` (the Python code assigns `self.args.node_port = None` and
mutates the aliased `pod_node_selector` dictionary) is modelled by state
passing: the embedded `get_k8s_rg` returns the resulting `RedisArgs`
alongside its optional resource group.
-/

/-! ## Python dictionaries as ordered association lists -/

/-- Python `dict` with `str` keys and `str` values, as an insertion-ordered
association list.  The representation invariant (unique keys) is carried as a
`Nodup` hypothesis where a proof needs it. -/
abbrev Dict := List (String × String)

namespace Dict

/-- Python `d[k]` / `d.get(k)`: the value at the first (with unique keys: the
only) entry for `k`. -/
def get : Dict → String → Option String
  | [], _ => none
  | (k0, v0) :: rest, k => if k0 = k then some v0 else get rest k

/-- Python `d[k] = v`: replace the value of an existing entry for `k` in
place, else append a new entry. -/
def set : Dict → String → String → Dict
  | [], k, v => [(k, v)]
  | (k0, v0) :: rest, k, v =>
      if k0 = k then (k, v) :: rest else (k0, v0) :: set rest k v

/-- Python `d1.update(d2)`: assign every entry of `d2` into `d1`, in order. -/
def update (d1 d2 : Dict) : Dict :=
  d2.foldl (fun acc kv => set acc kv.1 kv.2) d1

/-- The keys of a dictionary, in order. -/
def keys (d : Dict) : List String :=
  d.map (fun kv => kv.1)

@[simp]
theorem get_nil (k : String) : get [] k = none := rfl

@[simp]
theorem get_cons (k0 v0 : String) (rest : Dict) (k : String) :
    get ((k0, v0) :: rest) k = if k0 = k then some v0 else get rest k := rfl

theorem get_set_self (d : Dict) (k v : String) : get (set d k v) k = some v := by
  induction d with
  | nil => simp [set, get]
  | cons hd tl ih =>
      obtain ⟨k0, v0⟩ := hd
      by_cases h : k0 = k
      · simp [set, h, get]
      · simp [set, h, get, ih]

theorem get_set_of_ne (d : Dict) (k v k' : String) (h : k' ≠ k) :
    get (set d k v) k' = get d k' := by
  induction d with
  | nil => simp [set, get, Ne.symm h]
  | cons hd tl ih =>
      obtain ⟨k0, v0⟩ := hd
      by_cases h0 : k0 = k
      · subst h0
        simp [set, get, Ne.symm h]
      · simp only [set, if_neg h0, get_cons]
        by_cases h1 : k0 = k'
        · simp [h1]
        · simp [h1, ih]

theorem get_eq_none_of_not_mem_keys (d : Dict) (k : String) (h : k ∉ keys d) :
    get d k = none := by
  induction d with
  | nil => rfl
  | cons hd tl ih =>
      obtain ⟨k0, v0⟩ := hd
      simp only [keys, List.map_cons, List.mem_cons, not_or] at h
      simp [get, Ne.symm h.1, ih (by simpa [keys] using h.2)]

theorem get_update (d1 d2 : Dict) (k : String) (h : (keys d2).Nodup) :
    get (update d1 d2) k = (get d2 k).orElse (fun _ => get d1 k) := by
  induction d2 generalizing d1 with
  | nil => simp [update, get]
  | cons hd tl ih =>
      obtain ⟨k0, v0⟩ := hd
      simp only [keys, List.map_cons, List.nodup_cons] at h
      have hstep : update d1 ((k0, v0) :: tl) = update (set d1 k0 v0) tl := rfl
      rw [hstep, ih (set d1 k0 v0) (by simpa [keys] using h.2)]
      by_cases hk : k0 = k
      · subst hk
        have htl : get tl k0 = none :=
          get_eq_none_of_not_mem_keys tl k0 (by simpa [keys] using h.1)
        simp [get, htl, get_set_self]
      · simp [get, hk, get_set_of_ne d1 k0 v0 k (fun hh => hk hh.symm)]

end Dict

/-! ## YAML documents and the file system -/

/-- Result of `yaml.safe_load` on a file's text: either a mapping, or some
other document (including the `None` produced by an empty file), both of
which the source treats as "invalid" unless a mapping. -/
inductive YamlDoc where
  | dict (d : Dict)
  | other
  deriving Repr, DecidableEq

/-- The local file system, as a valuation from paths to parsed YAML
documents.  `none` models a path that does not exist or is not a regular
file. -/
def FileSys := String → Option YamlDoc

/-- The empty file system: no path exists. -/
def fsEmpty : FileSys := fun _ => none

/-! ## Enums and small data carriers

The enums referenced by `redis.py` that are defined in modules outside the
provided sources are modelled with exactly the constructors the source
mentions (plus the remaining standard members of the Kubernetes enums). -/

/-- `RedisVolumeType` from `phidata/app/redis/redis.py`. -/
inductive RedisVolumeType where
  | EMPTY_DIR
  | HOST_PATH
  | PERSISTENT_VOLUME
  | AWS_EBS
  deriving Repr, DecidableEq

/-- Modelled from the spec: `ServiceType` from
`phidata/infra/k8s/create/core/v1/service.py` (outside src); the source uses
`NODE_PORT` and `LOAD_BALANCER`, and the spec's cluster-style service types
include the default cluster-internal one. -/
inductive ServiceType where
  | CLUSTER_IP
  | NODE_PORT
  | LOAD_BALANCER
  deriving Repr, DecidableEq

/-- Modelled from the spec: `RestartPolicy` from
`phidata/infra/k8s/create/apps/v1/deployment.py` (outside src). -/
inductive RestartPolicy where
  | ALWAYS
  | ON_FAILURE
  | NEVER
  deriving Repr, DecidableEq

/-- Modelled from the spec: `ImagePullPolicy` from
`phidata/infra/k8s/create/core/v1/container.py` (outside src). -/
inductive ImagePullPolicy where
  | ALWAYS
  | IF_NOT_PRESENT
  | NEVER
  deriving Repr, DecidableEq

/-- Modelled from the spec: the Kubernetes `VolumeType` enum from
`phidata/infra/k8s/enums/volume_type.py` (outside src), with the members the
provided sources reference. -/
inductive VolumeType where
  | EMPTY_DIR
  | HOST_PATH
  | AWS_EBS
  | LOCAL
  | GCE_PERSISTENT_DISK
  deriving Repr, DecidableEq

/-- Python `Union[str, int]` as used for `target_port`. -/
inductive StrOrInt where
  | str (s : String)
  | int (i : Int)
  deriving Repr, DecidableEq

/-- Python `Union[str, List]` as used for `entrypoint` and `command`. -/
inductive StrOrList where
  | str (s : String)
  | list (l : List String)
  deriving Repr, DecidableEq

/-- Python truthiness of a `Union[str, int]` value (`""` and `0` are falsy). -/
def StrOrInt.truthy : StrOrInt → Bool
  | .str s => !(s = "")
  | .int i => !(i = 0)

/-- Python `tp or nm` for `tp : Optional[Union[str, int]]` and a string
fallback `nm`, as in `self.args.target_port or self.args.container_port_name`. -/
def targetPortOrName (tp : Option StrOrInt) (nm : String) : StrOrInt :=
  match tp with
  | some t => if t.truthy then t else .str nm
  | none => .str nm

/-- `HostPathVolumeSource` (fields as used by the sources: a path). -/
structure HostPathVolumeSource where
  path : String
  deriving Repr, DecidableEq

/-- `AwsElasticBlockStoreVolumeSource` (field as used by `redis.py`: the
volume id, which can be `None` when the region lookup fails). -/
structure AwsElasticBlockStoreVolumeSource where
  volume_id : Option String
  deriving Repr, DecidableEq

/-- Modelled from the spec: the external AWS collaborator `EbsVolume` from
`phidata/infra/aws/resource/ec2/volume.py` (outside src; §1 lists the AWS EBS
volume lookup as an external collaborator).  `get_volume_id` is the
region-keyed identifier lookup of §4.3, modelled as a pure valuation, and
`availability_zone` is the zone attribute read by `get_k8s_rg`. -/
structure EbsVolume where
  get_volume_id : Option String → Option String
  availability_zone : Option String

/-! ## RedisArgs

`RedisArgs` from `phidata/app/redis/redis.py`, with the pydantic defaults of
the source.  The two fields `db_password` and `db_schema` are modelled from
the spec: they belong to the base class `DbAppArgs` (outside src); they are
the optional explicit fields read by the fixed-key secret lookup of §4.2/§4.4
and default to `None`. -/

structure RedisArgs where
  name : String := "redis"
  version : String := "1"
  enabled : Bool := true
  image_name : String := "redis"
  image_tag : String := "6.2.6"
  entrypoint : Option StrOrList := none
  command : Option StrOrList := none
  db_password : Option String := none
  db_schema : Option String := none
  redis_password : Option String := none
  redis_schema : Option String := none
  redis_driver : String := "redis"
  logging_level : String := "debug"
  create_volume : Bool := true
  volume_type : RedisVolumeType := RedisVolumeType.EMPTY_DIR
  volume_name : Option String := none
  volume_container_path : String := "/data"
  volume_host_path : Option String := none
  ebs_volume : Option EbsVolume := none
  ebs_volume_region : Option String := none
  ebs_volume_id : Option String := none
  ebs_volume_az : Option String := none
  schedule_pods_in_ebs_topology : Bool := true
  container_name : Option String := none
  image_pull_policy : ImagePullPolicy := ImagePullPolicy.IF_NOT_PRESENT
  container_port : Int := 6379
  container_port_name : String := "redis"
  container_host_port : Int := 6379
  container_detach : Bool := true
  container_auto_remove : Bool := true
  container_remove : Bool := true
  env : Option Dict := none
  env_file : Option String := none
  config_map_name : Option String := none
  secret_name : Option String := none
  secrets_file : Option String := none
  deploy_name : Option String := none
  pod_name : Option String := none
  replicas : Int := 1
  pod_node_selector : Option Dict := none
  restart_policy : RestartPolicy := RestartPolicy.ALWAYS
  termination_grace_period_seconds : Option Int := none
  service_name : Option String := none
  service_type : Option ServiceType := none
  service_port : Int := 6379
  node_port : Option Int := none
  target_port : Option StrOrInt := none
  use_cache : Bool := true
  use_verbose_logs : Bool := false

/-! ## Default names and name resolution -/

/-- Modelled from the spec: the default-name helpers of
`phidata/utils/common.py` (outside src) derive names deterministically as a
convention prefix joined to the app name (§4.1). -/
def get_default_container_name (nm : String) : String := "container-" ++ nm

/-- Modelled from the spec: default ConfigMap name (§4.1, prefix `cm`). -/
def get_default_configmap_name (nm : String) : String := "cm-" ++ nm

/-- Modelled from the spec: default Secret name (§4.1, prefix `secret`). -/
def get_default_secret_name (nm : String) : String := "secret-" ++ nm

/-- Modelled from the spec: default Service name (§4.1, prefix `svc`). -/
def get_default_service_name (nm : String) : String := "svc-" ++ nm

/-- Modelled from the spec: default volume name (§4.1, prefix `volume`). -/
def get_default_volume_name (nm : String) : String := "volume-" ++ nm

/-- Modelled from the spec: default Deployment name (§4.1, prefix `deploy`). -/
def get_default_deploy_name (nm : String) : String := "deploy-" ++ nm

/-- Modelled from the spec: default pod name (§4.1, prefix `pod`). -/
def get_default_pod_name (nm : String) : String := "pod-" ++ nm

/-- Modelled from the spec: `get_image_str` of `phidata/utils/common.py`
(outside src) produces the `name:tag` image reference of §6. -/
def get_image_str (image_name image_tag : String) : String :=
  image_name ++ ":" ++ image_tag

/-- `Redis.get_container_name`. -/
def get_container_name (args : RedisArgs) : String :=
  args.container_name.getD (get_default_container_name args.name)

/-- `Redis.get_service_name`. -/
def get_service_name (args : RedisArgs) : String :=
  args.service_name.getD (get_default_service_name args.name)

/-- `Redis.get_service_port`. -/
def get_service_port (args : RedisArgs) : Int :=
  args.service_port

/-! ## Reading the env and secrets files -/

/-- `Redis.get_env_data_from_file`: returns the parsed mapping when
`env_file` is set, the path exists as a regular file and the document is a
mapping; every other case yields no data (a non-mapping additionally logs an
error in the source). -/
def get_env_data_from_file (fs : FileSys) (args : RedisArgs) : Option Dict :=
  match args.env_file with
  | none => none
  | some p =>
      match fs p with
      | some (YamlDoc.dict d) => some d
      | some YamlDoc.other => none
      | none => none

/-- `Redis.get_secret_data_from_file`: same shape as
`get_env_data_from_file`, for `secrets_file`. -/
def get_secret_data_from_file (fs : FileSys) (args : RedisArgs) : Option Dict :=
  match args.secrets_file with
  | none => none
  | some p =>
      match fs p with
      | some (YamlDoc.dict d) => some d
      | some YamlDoc.other => none
      | none => none

/-! ## Connection-string helpers -/

/-- `Redis.get_db_password`: the explicit `db_password` field if set,
otherwise (when a secrets file is configured) the fixed-key
`REDIS_PASSWORD` lookup in the secrets-file data. -/
def get_db_password (fs : FileSys) (args : RedisArgs) : Option String :=
  match args.db_password, args.secrets_file with
  | none, some _ =>
      match get_secret_data_from_file fs args with
      | some d => d.get "REDIS_PASSWORD"
      | none => none
  | pw, _ => pw

/-- `Redis.get_db_schema`: the explicit `db_schema` field if set, otherwise
(when a secrets file is configured) the fixed-key `REDIS_SCHEMA` lookup in
the secrets-file data. -/
def get_db_schema (fs : FileSys) (args : RedisArgs) : Option String :=
  match args.db_schema, args.secrets_file with
  | none, some _ =>
      match get_secret_data_from_file fs args with
      | some d => d.get "REDIS_SCHEMA"
      | none => none
  | sc, _ => sc

/-- `Redis.get_db_driver`. -/
def get_db_driver (args : RedisArgs) : String := args.redis_driver

/-- `Redis.get_db_host_local`. -/
def get_db_host_local : String := "localhost"

/-- `Redis.get_db_port_local`. -/
def get_db_port_local (args : RedisArgs) : Int := args.container_host_port

/-- `Redis.get_db_host_docker`. -/
def get_db_host_docker (args : RedisArgs) : String := get_container_name args

/-- `Redis.get_db_port_docker`. -/
def get_db_port_docker (args : RedisArgs) : Int := args.container_port

/-- `Redis.get_db_host_k8s`. -/
def get_db_host_k8s (args : RedisArgs) : String := get_service_name args

/-- `Redis.get_db_port_k8s`. -/
def get_db_port_k8s (args : RedisArgs) : Int := get_service_port args

/-- Rendering of an `Optional[str]` inside a Python f-string: `None` prints
as the four characters `None`. -/
def optStr : Option String → String
  | some s => s
  | none => "None"

/-- The `password_str` expression of the connection-url helpers:
`f"{password}@" if password else ""` (`None` and the empty string are
falsy). -/
def passwordStr : Option String → String
  | some p => if p = "" then "" else p ++ "@"
  | none => ""

/-- `Redis.get_db_connection_url_local`:
`f"{driver}://{password_str}@{host}:{port}/{schema}"` with the local host
and port. -/
def get_db_connection_url_local (fs : FileSys) (args : RedisArgs) : String :=
  get_db_driver args ++ "://" ++ passwordStr (get_db_password fs args) ++ "@"
    ++ get_db_host_local ++ ":" ++ toString (get_db_port_local args) ++ "/"
    ++ optStr (get_db_schema fs args)

/-- `Redis.get_db_connection_url_docker`: same template with the container
name and container port. -/
def get_db_connection_url_docker (fs : FileSys) (args : RedisArgs) : String :=
  get_db_driver args ++ "://" ++ passwordStr (get_db_password fs args) ++ "@"
    ++ get_db_host_docker args ++ ":" ++ toString (get_db_port_docker args) ++ "/"
    ++ optStr (get_db_schema fs args)

/-- `Redis.get_db_connection_url_k8s`: same template with the service name
and service port. -/
def get_db_connection_url_k8s (fs : FileSys) (args : RedisArgs) : String :=
  get_db_driver args ++ "://" ++ passwordStr (get_db_password fs args) ++ "@"
    ++ get_db_host_k8s args ++ ":" ++ toString (get_db_port_k8s args) ++ "/"
    ++ optStr (get_db_schema fs args)

/-! ## Kubernetes resource descriptors

The `Create*` descriptor classes instantiated by `get_k8s_rg`
(`phidata/infra/k8s/create/...`, outside src) are modelled as records with
exactly the fields the source passes. -/

/-- `CreateConfigMap` as instantiated by `get_k8s_rg`. -/
structure CreateConfigMap where
  cm_name : String
  app_name : String
  data : Dict
  deriving Repr, DecidableEq

/-- `CreateSecret` as instantiated by `get_k8s_rg`. -/
structure CreateSecret where
  secret_name : String
  app_name : String
  string_data : Dict
  deriving Repr, DecidableEq

/-- `CreatePort` as instantiated by `get_k8s_rg`; `node_port` starts unset
and is assigned by the node-port validation. -/
structure CreatePort where
  name : String
  container_port : Int
  service_port : Int
  target_port : StrOrInt
  node_port : Option Int := none
  deriving Repr, DecidableEq

/-- `CreateVolume` as instantiated by `get_k8s_rg`. -/
structure CreateVolume where
  volume_name : String
  app_name : String
  mount_path : String
  volume_type : VolumeType
  host_path : Option HostPathVolumeSource := none
  aws_ebs : Option AwsElasticBlockStoreVolumeSource := none
  deriving Repr, DecidableEq

/-- `CreateContainer` as instantiated by `get_k8s_rg`. -/
structure CreateContainer where
  container_name : String
  app_name : String
  image_name : String
  image_tag : String
  args : Option (List String)
  command : Option StrOrList
  image_pull_policy : ImagePullPolicy
  envs_from_configmap : List String
  envs_from_secret : Option (List String)
  ports : List CreatePort
  volumes : List CreateVolume
  labels : Option Dict
  deriving Repr, DecidableEq

/-- `CreateDeployment` as instantiated by `get_k8s_rg`. -/
structure CreateDeployment where
  deploy_name : String
  pod_name : String
  app_name : String
  «namespace» : String
  service_account_name : Option String
  replicas : Int
  containers : List CreateContainer
  pod_node_selector : Option Dict
  restart_policy : RestartPolicy
  termination_grace_period_seconds : Option Int
  volumes : List CreateVolume
  labels : Option Dict
  deriving Repr, DecidableEq

/-- `CreateService` as instantiated by `get_k8s_rg`. -/
structure CreateService where
  service_name : String
  app_name : String
  «namespace» : String
  service_account_name : Option String
  service_type : Option ServiceType
  deployment : CreateDeployment
  ports : List CreatePort
  labels : Option Dict
  deriving Repr, DecidableEq

/-- `CreateK8sResourceGroup` as instantiated by `get_k8s_rg`. -/
structure CreateK8sResourceGroup where
  name : String
  enabled : Bool
  config_maps : List CreateConfigMap
  secrets : Option (List CreateSecret)
  services : List CreateService
  deployments : List CreateDeployment
  deriving Repr, DecidableEq

/-- The cluster-style output group (`K8sResourceGroup`), mirroring the
builder's sub-resources. -/
structure K8sResourceGroup where
  name : String
  enabled : Bool
  config_maps : List CreateConfigMap
  secrets : Option (List CreateSecret)
  services : List CreateService
  deployments : List CreateDeployment
  deriving Repr, DecidableEq

/-- Modelled from the spec: `CreateK8sResourceGroup.create` of
`phidata/infra/k8s/create/group.py` (outside src).  Per §6 the cluster-style
output contains zero-or-one ConfigMap, zero-or-one Secret, exactly one
Deployment and zero-or-one Service following the manifest conventions; the
conversion is modelled as carrying each sub-resource descriptor through
unchanged into the output group. -/
def CreateK8sResourceGroup.create (g : CreateK8sResourceGroup) :
    Option K8sResourceGroup :=
  some
    { name := g.name
      enabled := g.enabled
      config_maps := g.config_maps
      secrets := g.secrets
      services := g.services
      deployments := g.deployments }

/-- `K8sBuildContext` (outside src): the build context whose `namespace`,
`service_account_name` and `labels` the source passes through. -/
structure K8sBuildContext where
  «namespace» : String
  service_account_name : Option String
  labels : Option Dict
  deriving Repr, DecidableEq

/-! ## Docker resource descriptors -/

/-- A value of the docker volumes mapping:
`{"bind": container_path, "mode": "rw"}`. -/
structure DockerVolumeBind where
  bind : String
  mode : String
  deriving Repr, DecidableEq

/-- `DockerContainer` as instantiated by `get_docker_rg`. -/
structure DockerContainer where
  name : String
  image : String
  entrypoint : Option StrOrList
  command : Option StrOrList
  detach : Bool
  auto_remove : Bool
  remove : Bool
  stdin_open : Bool
  tty : Bool
  environment : Dict
  network : String
  ports : List (String × Int)
  volumes : List (String × DockerVolumeBind)
  use_cache : Bool
  use_verbose_logs : Bool
  deriving Repr, DecidableEq

/-- `DockerNetwork` as instantiated by `get_docker_rg`. -/
structure DockerNetwork where
  name : String
  deriving Repr, DecidableEq

/-- `DockerResourceGroup` as instantiated by `get_docker_rg`. -/
structure DockerResourceGroup where
  name : String
  enabled : Bool
  network : DockerNetwork
  containers : List DockerContainer
  deriving Repr, DecidableEq

/-- `DockerBuildContext` (outside src): carries the network name the source
reads. -/
structure DockerBuildContext where
  network : String
  deriving Repr, DecidableEq

/-! ## The environment merge (`get_docker_rg`, redis.py lines 417-432) -/

/-- The docker container environment: start empty, `update` with the
env-file data, then with the secrets-file data, then with the inline `env`
mapping (each step skipped when that source contributed no data). -/
def mergedContainerEnv (env_data secret_data inline : Option Dict) : Dict :=
  let ce0 : Dict := []
  let ce1 := match env_data with
    | some d => ce0.update d
    | none => ce0
  let ce2 := match secret_data with
    | some d => ce1.update d
    | none => ce1
  match inline with
  | some d => ce2.update d
  | none => ce2

/-! ## Volume resolution for the Kubernetes build (redis.py lines 536-611) -/

/-- The volume section of `get_k8s_rg`: returns the container volumes
together with the local `pod_node_selector` value (which aliases
`args.pod_node_selector` when that is set), or `none` when the build aborts
(`HOST_PATH` without a host path, `AWS_EBS` without a volume id or volume
object, or an unsupported volume type). -/
def redisK8sVolumes (args : RedisArgs) :
    Option (List CreateVolume × Option Dict) :=
  let pns := args.pod_node_selector
  if args.create_volume then
    let volume_name := args.volume_name.getD (get_default_volume_name args.name)
    match args.volume_type with
    | RedisVolumeType.EMPTY_DIR =>
        some ([{ volume_name := volume_name
                 app_name := args.name
                 mount_path := args.volume_container_path
                 volume_type := VolumeType.EMPTY_DIR }], pns)
    | RedisVolumeType.HOST_PATH =>
        match args.volume_host_path with
        | some p =>
            some ([{ volume_name := volume_name
                     app_name := args.name
                     mount_path := args.volume_container_path
                     volume_type := VolumeType.HOST_PATH
                     host_path := some { path := p } }], pns)
        | none => none
    | RedisVolumeType.AWS_EBS =>
        if args.ebs_volume_id.isSome || args.ebs_volume.isSome then
          let ebs_volume_id : Option String :=
            match args.ebs_volume_id with
            | some i => some i
            | none =>
                match args.ebs_volume with
                | some v => v.get_volume_id args.ebs_volume_region
                | none => none
          let vol : CreateVolume :=
            { volume_name := volume_name
              app_name := args.name
              mount_path := args.volume_container_path
              volume_type := VolumeType.AWS_EBS
              aws_ebs := some { volume_id := ebs_volume_id } }
          let pns2 : Option Dict :=
            if args.schedule_pods_in_ebs_topology then
              let p0 := pns.getD []
              let p1 := match args.ebs_volume_region with
                | some r => p0.set "topology.kubernetes.io/region" r
                | none => p0
              let az : Option String :=
                match args.ebs_volume_az with
                | some a => some a
                | none =>
                    match args.ebs_volume with
                    | some v => v.availability_zone
                    | none => none
              let p2 := match az with
                | some a => p1.set "topology.kubernetes.io/zone" a
                | none => p1
              some p2
            else pns
          some ([vol], pns2)
        else none
    | RedisVolumeType.PERSISTENT_VOLUME => none
  else some ([], pns)

/-! ## Node-port validation (redis.py lines 621-648) -/

/-- The node-port validation of `get_k8s_rg`: `none` means the build aborts;
otherwise the result is the `node_port` to assign on the port descriptor
together with the (possibly mutated) argument record.  For `NODE_PORT` a
missing or out-of-range node port aborts; for `LOAD_BALANCER` the same check
runs only when a node port was supplied; for every other service type a
supplied node port is warned about and cleared on `args`. -/
def nodePortStep (args : RedisArgs) : Option (Option Int × RedisArgs) :=
  match args.service_type, args.node_port with
  | some ServiceType.NODE_PORT, some np =>
      if np < 30000 ∨ np > 32767 then none else some (some np, args)
  | some ServiceType.NODE_PORT, none => none
  | some ServiceType.LOAD_BALANCER, some np =>
      if np < 30000 ∨ np > 32767 then none else some (some np, args)
  | some ServiceType.LOAD_BALANCER, none => some (none, args)
  | _, some _ => some (none, { args with node_port := none })
  | _, none => some (none, args)

/-! ## The Kubernetes build (redis.py lines 502-710) -/

/-- The tail of `get_k8s_rg` after the volume section and node-port
validation: the container, deployment, service and resource-group
construction (redis.py lines 650-710). -/
def finishK8s (ctx : K8sBuildContext) (args : RedisArgs)
    (container_env_cm : CreateConfigMap)
    (container_env_secret : Option CreateSecret)
    (container_volumes : List CreateVolume)
    (pns : Option Dict) (container_port : CreatePort) :
    Option K8sResourceGroup :=
  let app_name := args.name
  let k8s_container : CreateContainer :=
    { container_name := get_container_name args
      app_name := app_name
      image_name := args.image_name
      image_tag := args.image_tag
      args := match args.command with
        | some (StrOrList.str s) => some [s]
        | some (StrOrList.list l) => some l
        | none => none
      command := args.entrypoint
      image_pull_policy := args.image_pull_policy
      envs_from_configmap := [container_env_cm.cm_name]
      envs_from_secret := match container_env_secret with
        | some s => some [s.secret_name]
        | none => none
      ports := [container_port]
      volumes := container_volumes
      labels := ctx.labels }
  let k8s_deployment : CreateDeployment :=
    { deploy_name := args.deploy_name.getD (get_default_deploy_name app_name)
      pod_name := args.pod_name.getD (get_default_pod_name app_name)
      app_name := app_name
      «namespace» := ctx.«namespace»
      service_account_name := ctx.service_account_name
      replicas := args.replicas
      containers := [k8s_container]
      pod_node_selector := pns
      restart_policy := args.restart_policy
      termination_grace_period_seconds := args.termination_grace_period_seconds
      volumes := container_volumes
      labels := ctx.labels }
  let k8s_service : CreateService :=
    { service_name := get_service_name args
      app_name := app_name
      «namespace» := ctx.«namespace»
      service_account_name := ctx.service_account_name
      service_type := args.service_type
      deployment := k8s_deployment
      ports := [container_port]
      labels := ctx.labels }
  let k8s_resource_group : CreateK8sResourceGroup :=
    { name := app_name
      enabled := args.enabled
      config_maps := [container_env_cm]
      secrets := match container_env_secret with
        | some s => some [s]
        | none => none
      services := [k8s_service]
      deployments := [k8s_deployment] }
  k8s_resource_group.create

/-- `Redis.get_k8s_rg`.  Returns the optional resource group together with
the resulting `RedisArgs` (the source mutates `self.args.node_port` and, via
aliasing, the caller-supplied `pod_node_selector` dictionary; the second
component records the state of `self.args` after the call, including after
an early `return None`). -/
def get_k8s_rg (fs : FileSys) (ctx : K8sBuildContext) (args : RedisArgs) :
    Option K8sResourceGroup × RedisArgs :=
  let app_name := args.name
  let env_data := get_env_data_from_file fs args
  let container_env0 : Dict := []
  let container_env1 := match env_data with
    | some d => container_env0.update d
    | none => container_env0
  let container_env := match args.env with
    | some e => container_env1.update e
    | none => container_env1
  let container_env_cm : CreateConfigMap :=
    { cm_name := args.config_map_name.getD (get_default_configmap_name app_name)
      app_name := app_name
      data := container_env }
  let secret_data := get_secret_data_from_file fs args
  let container_env_secret : Option CreateSecret :=
    match secret_data with
    | some d =>
        some { secret_name := args.secret_name.getD (get_default_secret_name app_name)
               app_name := app_name
               string_data := d }
    | none => none
  match redisK8sVolumes args with
  | none => (none, args)
  | some (container_volumes, pns) =>
      let args1 :=
        if args.pod_node_selector.isSome then { args with pod_node_selector := pns }
        else args
      let container_port0 : CreatePort :=
        { name := args.container_port_name
          container_port := args.container_port
          service_port := args.service_port
          target_port := targetPortOrName args.target_port args.container_port_name }
      match nodePortStep args1 with
      | none => (none, args1)
      | some (np, args2) =>
          let container_port := { container_port0 with node_port := np }
          (finishK8s ctx args2 container_env_cm container_env_secret
            container_volumes pns container_port, args2)

/-! ## The Docker build (redis.py lines 410-487) -/

/-- `Redis.get_docker_rg`: the container environment merge, the docker
volume dispatch (`EMPTY_DIR` bind-mounts a named volume; `HOST_PATH`
requires a host path; everything else is unsupported and aborts), the port
binding and the container/network group. -/
def get_docker_rg (fs : FileSys) (ctx : DockerBuildContext) (args : RedisArgs) :
    Option DockerResourceGroup :=
  let app_name := args.name
  let container_env :=
    mergedContainerEnv (get_env_data_from_file fs args)
      (get_secret_data_from_file fs args) args.env
  let container_volumes_opt : Option (List (String × DockerVolumeBind)) :=
    if args.create_volume then
      match args.volume_type with
      | RedisVolumeType.EMPTY_DIR =>
          let volume_name := args.volume_name.getD (get_default_volume_name app_name)
          some [(volume_name, { bind := args.volume_container_path, mode := "rw" })]
      | RedisVolumeType.HOST_PATH =>
          match args.volume_host_path with
          | some p => some [(p, { bind := args.volume_container_path, mode := "rw" })]
          | none => none
      | _ => none
    else some []
  match container_volumes_opt with
  | none => none
  | some container_volumes =>
      let container_ports : List (String × Int) :=
        [(toString args.container_port, args.container_host_port)]
      let docker_container : DockerContainer :=
        { name := get_container_name args
          image := get_image_str args.image_name args.image_tag
          entrypoint := args.entrypoint
          command := args.command
          detach := args.container_detach
          auto_remove := args.container_auto_remove
          remove := args.container_remove
          stdin_open := true
          tty := true
          environment := container_env
          network := ctx.network
          ports := container_ports
          volumes := container_volumes
          use_cache := args.use_cache
          use_verbose_logs := args.use_verbose_logs }
      some
        { name := app_name
          enabled := args.enabled
          network := { name := ctx.network }
          containers := [docker_container] }

/-! ## CreatePersistentVolume
(`phidata/infra/k8s/create/core/v1/persistent_volume.py`) -/

/-- Modelled from the spec: `LocalVolumeSource` from
`phidata/infra/k8s/resource/core/v1/persistent_volume.py` (outside src); per
§3 the local/host-path variant carries a filesystem path. -/
structure LocalVolumeSource where
  path : String
  deriving Repr, DecidableEq

/-- Modelled from the spec: `GcePersistentDiskVolumeSource` (outside src);
per §3 the cloud-disk variant carries a volume identifier. -/
structure GcePersistentDiskVolumeSource where
  pd_name : String
  deriving Repr, DecidableEq

/-- Modelled from the spec: `VolumeNodeAffinity` (outside src), an opaque
node-placement constraint payload (§3 topology constraints); its contents
are never inspected by the provided sources. -/
structure VolumeNodeAffinity where
  terms : List (String × String) := []
  deriving Repr, DecidableEq

/-- Modelled from the spec: `PVAccessMode` from
`phidata/infra/k8s/enums/pv.py` (outside src). -/
inductive PVAccessMode where
  | READ_WRITE_ONCE
  | READ_ONLY_MANY
  | READ_WRITE_MANY
  deriving Repr, DecidableEq

/-- Modelled from the spec: the `ApiVersion` enum member used by
`CreatePersistentVolume.create`. -/
inductive ApiVersion where
  | CORE_V1
  deriving Repr, DecidableEq

/-- Modelled from the spec: the `Kind` enum member used by
`CreatePersistentVolume.create`. -/
inductive Kind where
  | PERSISTENTVOLUME
  deriving Repr, DecidableEq

/-- `ObjectMeta` with the fields `CreatePersistentVolume.create` passes. -/
structure ObjectMeta where
  name : String
  «namespace» : Option String
  labels : Option Dict
  deriving Repr, DecidableEq

/-- `PersistentVolumeSpec` with the fields the source passes; the three
variant sources start unset and are filled by the volume-type dispatch. -/
structure PersistentVolumeSpec where
  access_modes : List PVAccessMode
  capacity : Option Dict
  mount_options : Option (List String)
  node_affinity : Option VolumeNodeAffinity
  persistent_volume_reclaim_policy : Option String
  storage_class_name : Option String
  volume_mode : Option String
  «local» : Option LocalVolumeSource := none
  host_path : Option HostPathVolumeSource := none
  gce_persistent_disk : Option GcePersistentDiskVolumeSource := none
  deriving Repr, DecidableEq

/-- `PersistentVolume` as instantiated by `CreatePersistentVolume.create`. -/
structure PersistentVolume where
  name : String
  api_version : ApiVersion
  kind : Kind
  metadata : ObjectMeta
  spec : PersistentVolumeSpec
  deriving Repr, DecidableEq

/-- Modelled from the spec: `create_component_labels_dict` of
`phidata/infra/k8s/create/common/labels.py` (outside src); it merges the
caller-supplied labels over fixed component/app labels. -/
def create_component_labels_dict (component_name app_name : String)
    (labels : Option Dict) : Dict :=
  Dict.update
    [("app.kubernetes.io/component", component_name),
     ("app.kubernetes.io/name", app_name)]
    (labels.getD [])

/-- `CreatePersistentVolume` (`persistent_volume.py` lines 24-61), with the
source's pydantic defaults. -/
structure CreatePersistentVolume where
  pv_name : String
  app_name : String
  «namespace» : Option String := none
  labels : Option Dict := none
  access_modes : List PVAccessMode := [PVAccessMode.READ_WRITE_ONCE]
  capacity : Option Dict := none
  mount_options : Option (List String) := none
  node_affinity : Option VolumeNodeAffinity := none
  persistent_volume_reclaim_policy : Option String := none
  storage_class_name : Option String := none
  volume_mode : Option String := none
  volume_type : VolumeType
  «local» : Option LocalVolumeSource := none
  host_path : Option HostPathVolumeSource := none
  gce_persistent_disk : Option GcePersistentDiskVolumeSource := none

/-- `CreatePersistentVolume.create` (`persistent_volume.py` lines 63-120):
builds the `PersistentVolume`, then dispatches on the volume type; when the
selected variant's source is present it is copied into the spec, and when it
is missing an error is printed but the resource is returned all the same
(the final `return persistent_volume` is unconditional). -/
def CreatePersistentVolume.create (c : CreatePersistentVolume) :
    Option PersistentVolume :=
  let pv_name := c.pv_name
  let pv_labels := create_component_labels_dict pv_name c.app_name c.labels
  let persistent_volume : PersistentVolume :=
    { name := pv_name
      api_version := ApiVersion.CORE_V1
      kind := Kind.PERSISTENTVOLUME
      metadata :=
        { name := pv_name
          «namespace» := c.«namespace»
          labels := some pv_labels }
      spec :=
        { access_modes := c.access_modes
          capacity := c.capacity
          mount_options := c.mount_options
          node_affinity := c.node_affinity
          persistent_volume_reclaim_policy := c.persistent_volume_reclaim_policy
          storage_class_name := c.storage_class_name
          volume_mode := c.volume_mode } }
  let persistent_volume :=
    match c.volume_type with
    | VolumeType.LOCAL =>
        match c.«local» with
        | some l =>
            { persistent_volume with
                spec := { persistent_volume.spec with «local» := some l } }
        | none => persistent_volume
    | VolumeType.HOST_PATH =>
        match c.host_path with
        | some h =>
            { persistent_volume with
                spec := { persistent_volume.spec with host_path := some h } }
        | none => persistent_volume
    | VolumeType.GCE_PERSISTENT_DISK =>
        match c.gce_persistent_disk with
        | some g =>
            { persistent_volume with
                spec := { persistent_volume.spec with gce_persistent_disk := some g } }
        | none => persistent_volume
    | _ => persistent_volume
  some persistent_volume

/-! ## File.write_pandas_df (`phidata/asset/file/file.py` lines 120-161) -/

/-- `FileType` from `phidata/asset/file/file.py`. -/
inductive FileType where
  | CSV
  | TSV
  | TXT
  | JSON
  deriving Repr, DecidableEq

/-- Which pandas writer a `write_pandas_df` call would invoke. -/
inductive WriteMode where
  | json
  | csv
  deriving Repr, DecidableEq

/-- `File.write_pandas_df`, as a pure decision function: `args_present`
models `self.args is not None`, `file_path` the resolved `self.file_path`,
`df_valid` the `isinstance(df, pd.DataFrame)` check, and `file_type` the
resolved `self.file_type`.  The result is the returned boolean together with
the pandas writer invoked (if any); the source's second dispatch branch
repeats the `FileType.JSON` condition (file.py line 153), so it is written
here exactly as in the source. -/
def write_pandas_df (args_present : Bool) (file_path : Option String)
    (df_valid : Bool) (file_type : Option FileType) : Bool × Option WriteMode :=
  if args_present = false then (false, none)
  else if file_path = none then (false, none)
  else if df_valid = false then (false, none)
  else if file_type = some FileType.JSON then (true, some WriteMode.json)
  else if file_type = some FileType.JSON then (true, some WriteMode.csv)
  else (false, none)

/-! ## Shared concrete inputs -/

/-- A default Kubernetes build context. -/
def ctx0 : K8sBuildContext :=
  { «namespace» := "default", service_account_name := none, labels := none }

/-- A default Docker build context. -/
def dctx0 : DockerBuildContext := { network := "bridge" }

/-- A `RedisArgs` record with every field at its source default (the record
produced by `Redis()` with no arguments). -/
def baseArgs : RedisArgs := {}

/-- A file system holding a secrets file that parses to the empty mapping. -/
def fsSecretsEmpty : FileSys :=
  fun p => if p = "secrets.yaml" then some (YamlDoc.dict []) else none

/-- A file system holding a secrets file with exactly the entry
`REDIS_PASSWORD ↦ x`. -/
def fsSecretsOne : FileSys :=
  fun p =>
    if p = "secrets.yaml" then some (YamlDoc.dict [("REDIS_PASSWORD", "x")])
    else none

/-- Default args pointed at the secrets file. -/
def argsSecretsFile : RedisArgs := { baseArgs with secrets_file := some "secrets.yaml" }

/-! ## Helper lemmas -/

/-- Lookup in the three-way docker environment merge is the right-biased
choice: inline first, then secrets-file data, then env-file data. -/
theorem mergedContainerEnv_get (e s i : Dict) (k : String)
    (he : (Dict.keys e).Nodup) (hs : (Dict.keys s).Nodup)
    (hi : (Dict.keys i).Nodup) :
    Dict.get (mergedContainerEnv (some e) (some s) (some i)) k
      = (Dict.get i k).orElse
          (fun _ => (Dict.get s k).orElse (fun _ => Dict.get e k)) := by
  unfold mergedContainerEnv
  rw [Dict.get_update _ i k hi, Dict.get_update _ s k hs, Dict.get_update _ e k he]
  cases Dict.get i k <;> cases Dict.get s k <;> cases Dict.get e k <;> rfl

/-- The four possible outcomes of the node-port validation: abort, keep the
node port on a `NODE_PORT`/`LOAD_BALANCER` service, clear a stray node port,
or pass through. -/
theorem nodePortStep_shape (args : RedisArgs) :
    nodePortStep args = none ∨
    nodePortStep args = some (args.node_port, args) ∨
    nodePortStep args = some (none, { args with node_port := none }) ∨
    nodePortStep args = some (none, args) := by
  rcases hst : args.service_type with _ | st
  · rcases hnp : args.node_port with _ | np
    · right; right; right; simp [nodePortStep, hst, hnp]
    · right; right; left; simp [nodePortStep, hst, hnp]
  · cases st with
    | CLUSTER_IP =>
        rcases hnp : args.node_port with _ | np
        · right; right; right; simp [nodePortStep, hst, hnp]
        · right; right; left; simp [nodePortStep, hst, hnp]
    | NODE_PORT =>
        rcases hnp : args.node_port with _ | np
        · left; simp [nodePortStep, hst, hnp]
        · by_cases hr : np < 30000 ∨ np > 32767
          · left; simp [nodePortStep, hst, hnp, hr]
          · right; left; simp [nodePortStep, hst, hnp, hr]
    | LOAD_BALANCER =>
        rcases hnp : args.node_port with _ | np
        · right; right; right; simp [nodePortStep, hst, hnp]
        · by_cases hr : np < 30000 ∨ np > 32767
          · left; simp [nodePortStep, hst, hnp, hr]
          · right; left; simp [nodePortStep, hst, hnp, hr]

/-! ## Claim C2 -/

/-- C2: in the docker container-environment merge, for any key, an inline
(`env`) entry wins over a secrets-file entry, which wins over an env-file
entry: the merged environment maps the key to the inline value if present,
else to the secrets-file value if present, else to the env-file value. -/
theorem docker_env_merge_precedence (e s i : Dict) (k : String)
    (he : (Dict.keys e).Nodup) (hs : (Dict.keys s).Nodup)
    (hi : (Dict.keys i).Nodup) :
    (∀ v, Dict.get i k = some v →
       Dict.get (mergedContainerEnv (some e) (some s) (some i)) k = some v) ∧
    (Dict.get i k = none → ∀ v, Dict.get s k = some v →
       Dict.get (mergedContainerEnv (some e) (some s) (some i)) k = some v) ∧
    (Dict.get i k = none → Dict.get s k = none →
       Dict.get (mergedContainerEnv (some e) (some s) (some i)) k = Dict.get e k) := by
  have hkey := mergedContainerEnv_get e s i k he hs hi
  refine ⟨?_, ?_, ?_⟩
  · intro v hv; rw [hkey, hv]; rfl
  · intro hni v hv; rw [hkey, hni, hv]; rfl
  · intro hni hns; rw [hkey, hni, hns]; rfl

/-- Witness for C2: on overlapping singleton sources the inline value is the
one the merge keeps. -/
theorem docker_env_merge_precedence_witness :
    Dict.get (mergedContainerEnv (some [("K", "from-env-file")])
      (some [("K", "from-secrets")]) (some [("K", "inline")])) "K"
      = some "inline" :=
  (docker_env_merge_precedence [("K", "from-env-file")] [("K", "from-secrets")]
    [("K", "inline")] "K" (by decide) (by decide) (by decide)).1 "inline" (by decide)

/-! ## Claim C10 -/

/-- C10: `write_pandas_df` returns `False` (and performs no write) whenever
the resolved file type is CSV, TSV or TXT; a call only succeeds when the
file type is JSON; and the second dispatch branch (the one invoking
`to_csv`) is unreachable because its condition repeats `FileType.JSON`. -/
theorem write_pandas_df_only_json (a : Bool) (p : Option String) (d : Bool)
    (ft : Option FileType) :
    ((ft = some FileType.CSV ∨ ft = some FileType.TSV ∨ ft = some FileType.TXT) →
       write_pandas_df a p d ft = (false, none)) ∧
    ((write_pandas_df a p d ft).1 = true → ft = some FileType.JSON) ∧
    (write_pandas_df a p d ft).2 ≠ some WriteMode.csv := by
  rcases a <;> rcases d <;> rcases p with _ | s <;> rcases ft with _ | t <;>
    try cases t
  all_goals simp [write_pandas_df]

/-- Witness for C10: a CSV-typed file with a valid data frame and path still
yields `False` and no write. -/
theorem write_pandas_df_only_json_witness :
    write_pandas_df true (some "data.csv") true (some FileType.CSV)
      = (false, none) :=
  (write_pandas_df_only_json true (some "data.csv") true
    (some FileType.CSV)).1 (Or.inl rfl)

/-! ## Claim C6 -/

/-- A `CreatePersistentVolume` selecting the local variant without a
`LocalVolumeSource`. -/
def pvLocalNoSource : CreatePersistentVolume :=
  { pv_name := "pv-1", app_name := "app-1", volume_type := VolumeType.LOCAL }

/-- A `CreatePersistentVolume` selecting the host-path variant without a
`HostPathVolumeSource`. -/
def pvHostNoSource : CreatePersistentVolume :=
  { pv_name := "pv-2", app_name := "app-2", volume_type := VolumeType.HOST_PATH }

/-- Counterexample for C6: a local-variant `CreatePersistentVolume` without
its required `LocalVolumeSource` still returns a resource, and the returned
resource's local source is missing — the build is not a validation error
that withholds the resource. -/
theorem persistent_volume_missing_source_cex :
    pvLocalNoSource.create ≠ none ∧
    pvLocalNoSource.create.map (fun pv => pv.spec.«local») = some none := by
  decide

/-- C6 (amended): when the selected variant's source is absent,
`CreatePersistentVolume.create` logs an error but still returns the
`PersistentVolume`, with every variant source left unset; only the Redis
app-level host-path check (`get_k8s_rg`) returns absence on a missing
required field. -/
theorem persistent_volume_missing_source_amended (c : CreatePersistentVolume)
    (h : (c.volume_type = VolumeType.LOCAL ∧ c.«local» = none) ∨
         (c.volume_type = VolumeType.HOST_PATH ∧ c.host_path = none) ∨
         (c.volume_type = VolumeType.GCE_PERSISTENT_DISK ∧
           c.gce_persistent_disk = none)) :
    (∃ pv, c.create = some pv ∧ pv.spec.«local» = none ∧
       pv.spec.host_path = none ∧ pv.spec.gce_persistent_disk = none) ∧
    (∀ fs ctx args, args.create_volume = true →
       args.volume_type = RedisVolumeType.HOST_PATH →
       args.volume_host_path = none → (get_k8s_rg fs ctx args).1 = none) := by
  constructor
  · rcases h with ⟨h1, h2⟩ | ⟨h1, h2⟩ | ⟨h1, h2⟩ <;>
      · simp only [CreatePersistentVolume.create, h1, h2]
        exact ⟨_, rfl, rfl, rfl, rfl⟩
  · intro fs ctx args hcv hvt hvh
    have hv : redisK8sVolumes args = none := by
      simp [redisK8sVolumes, hcv, hvt, hvh]
    simp [get_k8s_rg, hv]

/-- Witness for C6 (amended): the host-path variant without a source returns
a resource with no variant source set. -/
theorem persistent_volume_missing_source_amended_witness :
    ∃ pv, pvHostNoSource.create = some pv ∧ pv.spec.«local» = none ∧
      pv.spec.host_path = none ∧ pv.spec.gce_persistent_disk = none :=
  (persistent_volume_missing_source_amended pvHostNoSource
    (Or.inr (Or.inl ⟨rfl, rfl⟩))).1

/-! ## Claim C9 -/

/-- Default args with schema `0` resolved and no password. -/
def argsC9 : RedisArgs := { baseArgs with db_schema := some "0" }

/-- Default args with schema `0` and the explicit password `p`. -/
def argsC9p : RedisArgs :=
  { baseArgs with db_schema := some "0", db_password := some "p" }

/-- Counterexample for C9: with a password set the helper does not produce
`<driver>://<password>@<host>:<port>/<schema>`: the produced string carries
a double `@` (`password_str` already ends in `@` and the template inserts a
second one). -/
theorem connection_url_double_at_cex :
    get_db_connection_url_local fsEmpty argsC9p = "redis://p@@localhost:6379/0" ∧
    "redis://p@@localhost:6379/0" ≠ "redis://p@localhost:6379/0" := by
  decide

/-- C9 (amended): the connection-string helpers compose
`<driver>://<pwd>@<host>:<port>/<schema>` where `<pwd>` is `<password>@`
when a password resolves (so a set password yields a double `@`) and empty
otherwise, with host/port per context: `localhost` and the host port for
local, the container name and container port for docker, the service name
and service port for the cluster; with no password the local helper
produces exactly `redis://@localhost:6379/0`. -/
theorem connection_url_amended (fs : FileSys) (args : RedisArgs) (pw : String)
    (hpw : get_db_password fs args = some pw) (hne : pw ≠ "") :
    get_db_connection_url_local fs args
      = get_db_driver args ++ "://" ++ (pw ++ "@") ++ "@" ++ "localhost" ++ ":"
        ++ toString (get_db_port_local args) ++ "/" ++ optStr (get_db_schema fs args) ∧
    get_db_connection_url_docker fs args
      = get_db_driver args ++ "://" ++ (pw ++ "@") ++ "@" ++ get_container_name args ++ ":"
        ++ toString (get_db_port_docker args) ++ "/" ++ optStr (get_db_schema fs args) ∧
    get_db_connection_url_k8s fs args
      = get_db_driver args ++ "://" ++ (pw ++ "@") ++ "@" ++ get_service_name args ++ ":"
        ++ toString (get_db_port_k8s args) ++ "/" ++ optStr (get_db_schema fs args) ∧
    get_db_connection_url_local fsEmpty argsC9 = "redis://@localhost:6379/0" := by
  have hps : passwordStr (get_db_password fs args) = pw ++ "@" := by
    rw [hpw]; simp [passwordStr, hne]
  refine ⟨?_, ?_, ?_, by decide⟩ <;>
    simp [get_db_connection_url_local, get_db_connection_url_docker,
      get_db_connection_url_k8s, hps, get_db_host_local, get_db_host_docker,
      get_db_host_k8s]

/-- Witness for C9 (amended): the no-password concrete case. -/
theorem connection_url_amended_witness :
    get_db_connection_url_local fsEmpty argsC9 = "redis://@localhost:6379/0" :=
  (connection_url_amended fsEmpty argsC9p "p" (by decide) (by decide)).2.2.2

/-! ## Claim C1 -/

/-- Args with service type `NODE_PORT` and the invalid node port 29999. -/
def argsC1cex : RedisArgs :=
  { baseArgs with service_type := some ServiceType.NODE_PORT,
                  node_port := some 29999 }

/-- Args with service type `NODE_PORT` and no node port supplied. -/
def argsC1w : RedisArgs :=
  { baseArgs with service_type := some ServiceType.NODE_PORT }

/-- Counterexample for C1: with service type `NODE_PORT` and the invalid
node port 29999, `get_k8s_rg` returns no resource group at all — the
ConfigMap, Secret and Deployment are withheld together with the Service,
contradicting the claim that only the Service is dropped. -/
theorem redis_invalid_node_port_cex :
    (get_k8s_rg fsEmpty ctx0 argsC1cex).1 = none := by decide

/-- C1 (amended): with service type `NODE_PORT`, a missing or out-of-range
node port aborts the whole cluster-style build: no resource group is
returned, so the ConfigMap, Secret and Deployment are withheld along with
the Service — at this granularity the group IS all-or-nothing. -/
theorem redis_invalid_node_port_aborts_group (fs : FileSys)
    (ctx : K8sBuildContext) (args : RedisArgs)
    (hst : args.service_type = some ServiceType.NODE_PORT)
    (hbad : ∀ np, args.node_port = some np → np < 30000 ∨ np > 32767) :
    (get_k8s_rg fs ctx args).1 = none := by
  rcases hv : redisK8sVolumes args with _ | ⟨vols, pns⟩
  · simp [get_k8s_rg, hv]
  · by_cases hps : args.pod_node_selector.isSome <;>
    · rcases hnp : args.node_port with _ | np
      · simp [get_k8s_rg, hv, hps, nodePortStep, hst, hnp]
      · have hr := hbad np hnp
        simp [get_k8s_rg, hv, hps, nodePortStep, hst, hnp, hr]

/-- Witness for C1 (amended): `NODE_PORT` with no node port supplied yields
no resource group. -/
theorem redis_invalid_node_port_aborts_group_witness :
    (get_k8s_rg fsEmpty ctx0 argsC1w).1 = none :=
  redis_invalid_node_port_aborts_group fsEmpty ctx0 argsC1w rfl
    (fun _ h => nomatch h)

/-! ## Claim C3 -/

/-- Args with service type `NODE_PORT`, a valid node port, but a broken
volume configuration (`HOST_PATH` without a host path). -/
def argsC3cex : RedisArgs :=
  { baseArgs with volume_type := RedisVolumeType.HOST_PATH,
                  service_type := some ServiceType.NODE_PORT,
                  node_port := some 30000 }

/-- Args with service type `NODE_PORT` and node port 30000 on the default
(always-succeeding) volume configuration. -/
def argsC3w : RedisArgs :=
  { baseArgs with service_type := some ServiceType.NODE_PORT,
                  node_port := some 30000 }

/-- The `EMPTY_DIR` volume descriptor the default args produce. -/
def volC3w : CreateVolume :=
  { volume_name := "volume-redis", app_name := "redis", mount_path := "/data",
    volume_type := VolumeType.EMPTY_DIR }

/-- Counterexample for C3: node port 30000 does not always yield a Service —
with a failing volume configuration the whole build (hence the Service) is
withheld even though the node port is in range. -/
theorem node_port_30000_without_service_cex :
    (get_k8s_rg fsEmpty ctx0 argsC3cex).1 = none := by decide

/-- C3 (amended): provided volume resolution succeeds, for service type
`NODE_PORT` with a supplied node port the build returns a group exactly when
the node port lies in [30000, 32767] (so 29999 and 32768 yield no Service),
and for an in-range node port the group's single Service carries exactly
that node port. -/
theorem node_port_range_iff_service (fs : FileSys) (ctx : K8sBuildContext)
    (args : RedisArgs) (np : Int) (vols : List CreateVolume) (pns : Option Dict)
    (hv : redisK8sVolumes args = some (vols, pns))
    (hst : args.service_type = some ServiceType.NODE_PORT)
    (hnp : args.node_port = some np) :
    ((get_k8s_rg fs ctx args).1.isSome ↔ (30000 ≤ np ∧ np ≤ 32767)) ∧
    (30000 ≤ np → np ≤ 32767 →
      ∃ g, (get_k8s_rg fs ctx args).1 = some g ∧
        g.services.map (fun s => s.ports.map (fun p => p.node_port))
          = [[some np]]) := by
  by_cases hr : np < 30000 ∨ np > 32767
  · have h1 : (get_k8s_rg fs ctx args).1 = none := by
      by_cases hps : args.pod_node_selector.isSome <;>
        simp [get_k8s_rg, hv, hps, nodePortStep, hst, hnp, hr]
    constructor
    · rw [h1]; simp; omega
    · intro h30 h32; exfalso; omega
  · have h1 : ∃ g, (get_k8s_rg fs ctx args).1 = some g ∧
        g.services.map (fun s => s.ports.map (fun p => p.node_port))
          = [[some np]] := by
      by_cases hps : args.pod_node_selector.isSome <;>
        simp [get_k8s_rg, hv, hps, nodePortStep, hst, hnp, hr, finishK8s,
          CreateK8sResourceGroup.create]
    obtain ⟨g, hg, hmap⟩ := h1
    constructor
    · rw [hg]
      constructor
      · intro _; omega
      · intro _; rfl
    · intro _ _; exact ⟨g, hg, hmap⟩

/-- Witness for C3 (amended): node port 30000 on the default volume
configuration yields a group whose single Service carries node port
30000. -/
theorem node_port_range_iff_service_witness :
    ∃ g, (get_k8s_rg fsEmpty ctx0 argsC3w).1 = some g ∧
      g.services.map (fun s => s.ports.map (fun p => p.node_port))
        = [[some 30000]] :=
  (node_port_range_iff_service fsEmpty ctx0 argsC3w 30000 [volC3w] none
    (by decide) rfl rfl).2 (by decide) (by decide)

/-! ## Claim C5 -/

/-- Args with a stray node port (no service type). -/
def argsC5 : RedisArgs := { baseArgs with node_port := some 31000 }

/-- Counterexample for C5: building the cluster resource graph is not
side-effect-free on the options — a node port supplied without a
`NODE_PORT`/`LOAD_BALANCER` service type is cleared on `args` by
`get_k8s_rg`. -/
theorem k8s_build_mutates_args_cex :
    (get_k8s_rg fsEmpty ctx0 argsC5).2.node_port = none ∧
    argsC5.node_port = some 31000 := by decide

/-- C5 (amended): `get_k8s_rg` leaves every field of the options unchanged
except possibly `node_port` (cleared when supplied without a
`NODE_PORT`/`LOAD_BALANCER` service type) and `pod_node_selector` (mutated
in place, via aliasing, by the AWS-EBS topology derivation): the resulting
options record is the input with at most those two fields replaced. -/
theorem k8s_build_frame (fs : FileSys) (ctx : K8sBuildContext)
    (args : RedisArgs) :
    ∃ np pns, (get_k8s_rg fs ctx args).2
      = { args with node_port := np, pod_node_selector := pns } := by
  rcases hv : redisK8sVolumes args with _ | ⟨vols, pns⟩
  · exact ⟨args.node_port, args.pod_node_selector, by simp [get_k8s_rg, hv]⟩
  · by_cases hps : args.pod_node_selector.isSome
    · rcases nodePortStep_shape { args with pod_node_selector := pns }
        with hs | hs | hs | hs
      · exact ⟨args.node_port, pns, by simp [get_k8s_rg, hv, hps, hs]⟩
      · exact ⟨args.node_port, pns, by simp [get_k8s_rg, hv, hps, hs]⟩
      · exact ⟨none, pns, by simp [get_k8s_rg, hv, hps, hs]⟩
      · exact ⟨args.node_port, pns, by simp [get_k8s_rg, hv, hps, hs]⟩
    · rcases nodePortStep_shape args with hs | hs | hs | hs
      · exact ⟨args.node_port, args.pod_node_selector,
          by simp [get_k8s_rg, hv, hps, hs]⟩
      · exact ⟨args.node_port, args.pod_node_selector,
          by simp [get_k8s_rg, hv, hps, hs]⟩
      · exact ⟨none, args.pod_node_selector,
          by simp [get_k8s_rg, hv, hps, hs]⟩
      · exact ⟨args.node_port, args.pod_node_selector,
          by simp [get_k8s_rg, hv, hps, hs]⟩

/-- On a successful volume resolution the resulting options' node selector
is exactly the local `pod_node_selector` value, whenever the caller had
supplied one (the aliasing case). -/
theorem get_k8s_rg_snd_selector (fs : FileSys) (ctx : K8sBuildContext)
    (args : RedisArgs) (vols : List CreateVolume) (pns : Option Dict)
    (hv : redisK8sVolumes args = some (vols, pns))
    (hps : args.pod_node_selector.isSome = true) :
    (get_k8s_rg fs ctx args).2.pod_node_selector = pns := by
  rcases nodePortStep_shape { args with pod_node_selector := pns }
    with hs | hs | hs | hs <;>
    simp [get_k8s_rg, hv, hps, hs]

/-! ## Claim C4 -/

/-- An AWS-EBS volume build whose caller-supplied node selector already
carries the topology region key (with value `eu-west-1`), while the volume's
region is `us-east-2`. -/
def argsC4 : RedisArgs :=
  { baseArgs with
      volume_type := RedisVolumeType.AWS_EBS,
      ebs_volume_id := some "vol-123",
      ebs_volume_region := some "us-east-2",
      ebs_volume_az := some "us-east-2a",
      pod_node_selector := some [("topology.kubernetes.io/region", "eu-west-1")] }

/-- Counterexample for C4: the topology derivation overwrites the caller's
explicit region entry — after the build the selector maps the region key to
the volume's region `us-east-2`, although the caller had set `eu-west-1`. -/
theorem ebs_topology_overwrites_selector_cex :
    (get_k8s_rg fsEmpty ctx0 argsC4).2.pod_node_selector.map
        (fun d => Dict.get d "topology.kubernetes.io/region")
      = some (some "us-east-2") ∧
    argsC4.pod_node_selector.map
        (fun d => Dict.get d "topology.kubernetes.io/region")
      = some (some "eu-west-1") := by
  decide

/-- C4 (amended): in an AWS-EBS build with the schedule-pods-in-topology
flag set, the derived region and zone values overwrite any caller-supplied
entries of the same keys whenever the derived value is non-null — the
derivation does not merely fill absent keys. -/
theorem ebs_topology_overwrite_amended (fs : FileSys) (ctx : K8sBuildContext)
    (args : RedisArgs) (d : Dict) (r a : String)
    (hcv : args.create_volume = true)
    (hvt : args.volume_type = RedisVolumeType.AWS_EBS)
    (hid : args.ebs_volume_id.isSome ∨ args.ebs_volume.isSome)
    (hsch : args.schedule_pods_in_ebs_topology = true)
    (hr : args.ebs_volume_region = some r)
    (ha : args.ebs_volume_az = some a)
    (hd : args.pod_node_selector = some d) :
    ∃ d2, (get_k8s_rg fs ctx args).2.pod_node_selector = some d2 ∧
      Dict.get d2 "topology.kubernetes.io/region" = some r ∧
      Dict.get d2 "topology.kubernetes.io/zone" = some a := by
  have hcond : (args.ebs_volume_id.isSome || args.ebs_volume.isSome) = true := by
    rcases hid with h | h <;> simp [h]
  have hv : ∃ vols, redisK8sVolumes args
      = some (vols,
          some ((Dict.set d "topology.kubernetes.io/region" r).set
            "topology.kubernetes.io/zone" a)) := by
    simp only [redisK8sVolumes, hcv, hvt, hcond, hsch, hr, ha, hd, if_true,
      Option.getD_some]
    exact ⟨_, rfl⟩
  obtain ⟨vols, hv⟩ := hv
  have hps : args.pod_node_selector.isSome = true := by simp [hd]
  refine ⟨(Dict.set d "topology.kubernetes.io/region" r).set
    "topology.kubernetes.io/zone" a, ?_, ?_, ?_⟩
  · exact get_k8s_rg_snd_selector fs ctx args vols _ hv hps
  · rw [Dict.get_set_of_ne _ _ _ _ (by decide)]
    exact Dict.get_set_self d _ r
  · exact Dict.get_set_self _ _ a

/-- Witness for C4 (amended): on the concrete AWS-EBS build the final
selector carries the volume's region and zone. -/
theorem ebs_topology_overwrite_amended_witness :
    ∃ d2, (get_k8s_rg fsEmpty ctx0 argsC4).2.pod_node_selector = some d2 ∧
      Dict.get d2 "topology.kubernetes.io/region" = some "us-east-2" ∧
      Dict.get d2 "topology.kubernetes.io/zone" = some "us-east-2a" :=
  ebs_topology_overwrite_amended fsEmpty ctx0 argsC4
    [("topology.kubernetes.io/region", "eu-west-1")] "us-east-2" "us-east-2a"
    rfl rfl (Or.inl (by decide)) rfl rfl rfl rfl

/-! ## Claim C7 -/

/-- Args with the default `EMPTY_DIR` volume but an invalid node-port
configuration (`NODE_PORT` with no node port). -/
def argsC7cex : RedisArgs :=
  { baseArgs with service_type := some ServiceType.NODE_PORT }

/-- Counterexample for C7: with `create_volume` set and volume type
`EMPTY_DIR`, a volume descriptor is NOT always produced — an invalid
node-port configuration withholds the whole cluster group, so no volume
descriptor appears in the output. -/
theorem empty_dir_volume_withheld_cex :
    argsC7cex.create_volume = true ∧
    argsC7cex.volume_type = RedisVolumeType.EMPTY_DIR ∧
    (get_k8s_rg fsEmpty ctx0 argsC7cex).1 = none := by
  decide

/-- C7 (amended): with `create_volume` set, `HOST_PATH` without a host path
yields no group (no volume and no container/deployment) in either build, and
the unrecognized `PERSISTENT_VOLUME` tag likewise; `EMPTY_DIR` always yields
exactly one volume binding in the docker build, and the cluster build's
volume-resolution step always produces exactly one `EMPTY_DIR` descriptor
(leaving the node selector untouched) — though the cluster group as a whole
can still be withheld by the later node-port validation. -/
theorem redis_volume_dispatch_amended (fs : FileSys)
    (dctx : DockerBuildContext) (ctx : K8sBuildContext) (args : RedisArgs)
    (hcv : args.create_volume = true) :
    (args.volume_type = RedisVolumeType.HOST_PATH →
       args.volume_host_path = none →
       get_docker_rg fs dctx args = none ∧ (get_k8s_rg fs ctx args).1 = none) ∧
    (args.volume_type = RedisVolumeType.EMPTY_DIR →
       (get_docker_rg fs dctx args).map
           (fun g => g.containers.map
             (fun c => c.volumes.map (fun kv => kv.2.bind)))
         = some [[args.volume_container_path]] ∧
       (redisK8sVolumes args).map
           (fun vp => (vp.1.map (fun v => (v.volume_type, v.mount_path)), vp.2))
         = some ([(VolumeType.EMPTY_DIR, args.volume_container_path)],
             args.pod_node_selector)) ∧
    (args.volume_type = RedisVolumeType.PERSISTENT_VOLUME →
       get_docker_rg fs dctx args = none ∧ (get_k8s_rg fs ctx args).1 = none) := by
  refine ⟨?_, ?_, ?_⟩
  · intro h1 h2
    have hv : redisK8sVolumes args = none := by
      simp [redisK8sVolumes, hcv, h1, h2]
    exact ⟨by simp [get_docker_rg, hcv, h1, h2], by simp [get_k8s_rg, hv]⟩
  · intro h
    constructor
    · simp [get_docker_rg, hcv, h]
    · simp [redisK8sVolumes, hcv, h]
  · intro h
    have hv : redisK8sVolumes args = none := by
      simp [redisK8sVolumes, hcv, h]
    exact ⟨by simp [get_docker_rg, hcv, h], by simp [get_k8s_rg, hv]⟩

/-- Witness for C7 (amended): the default `EMPTY_DIR` configuration yields a
docker group with exactly one volume binding at the container path. -/
theorem redis_volume_dispatch_amended_witness :
    (get_docker_rg fsEmpty dctx0 baseArgs).map
        (fun g => g.containers.map
          (fun c => c.volumes.map (fun kv => kv.2.bind)))
      = some [["/data"]] :=
  ((redis_volume_dispatch_amended fsEmpty dctx0 ctx0 baseArgs rfl).2.1 rfl).1

/-! ## Claim C8 -/

/-- The secrets of any group produced by `finishK8s` are exactly the
optional secret descriptor it was given, wrapped in a singleton list. -/
theorem finishK8s_secrets (ctx : K8sBuildContext) (args : RedisArgs)
    (cm : CreateConfigMap) (secretOpt : Option CreateSecret)
    (vols : List CreateVolume) (pns : Option Dict) (port : CreatePort)
    (g : K8sResourceGroup)
    (h : finishK8s ctx args cm secretOpt vols pns port = some g) :
    g.secrets = secretOpt.map (fun s => [s]) := by
  simp only [finishK8s, CreateK8sResourceGroup.create, Option.some.injEq] at h
  subst h
  cases secretOpt <;> rfl

/-- Counterexample for C8: a secrets file that parses to the empty mapping
contributes no data, yet the cluster-style output carries a Secret — an
empty one — because the source tests the parsed data against `None`, not
for emptiness. -/
theorem empty_secrets_mapping_emits_secret_cex :
    get_secret_data_from_file fsSecretsEmpty argsSecretsFile = some [] ∧
    ((get_k8s_rg fsSecretsEmpty ctx0 argsSecretsFile).1.map
        (fun g => g.secrets.map (fun l => l.map (fun s => s.string_data))))
      = some (some [[]]) := by
  decide

/-- C8 (amended): whenever the cluster-style build returns a group, the
group carries no Secret exactly when the secrets file yielded no mapping
(absent, unreadable, or not parsing to a mapping); when the secrets file
parses to a mapping — even an empty one — the group carries exactly one
Secret whose data is exactly that mapping (so `REDIS_PASSWORD ↦ x` gives
one Secret with exactly that key). -/
theorem secret_emission_amended (fs : FileSys) (ctx : K8sBuildContext)
    (args : RedisArgs) (g : K8sResourceGroup)
    (hg : (get_k8s_rg fs ctx args).1 = some g) :
    (get_secret_data_from_file fs args = none → g.secrets = none) ∧
    (∀ d, get_secret_data_from_file fs args = some d →
       g.secrets.map (fun l => l.map (fun s => s.string_data)) = some [d]) := by
  rcases hv : redisK8sVolumes args with _ | ⟨vols, pns⟩
  · simp [get_k8s_rg, hv] at hg
  · simp only [get_k8s_rg, hv] at hg
    split at hg
    · simp at hg
    · dsimp only at hg
      have hsecs := finishK8s_secrets _ _ _ _ _ _ _ _ hg
      constructor
      · intro h0
        rw [hsecs]
        simp [h0]
      · intro d hd
        rw [hsecs]
        simp [hd]

/-- Witness for C8 (amended): with a secrets file holding exactly
`REDIS_PASSWORD ↦ x` the produced group has exactly one Secret with exactly
that data. -/
theorem secret_emission_amended_witness :
    ((get_k8s_rg fsSecretsOne ctx0 argsSecretsFile).1.getD
        ⟨"", false, [], none, [], []⟩).secrets.map
        (fun l => l.map (fun s => s.string_data))
      = some [[("REDIS_PASSWORD", "x")]] :=
  (secret_emission_amended fsSecretsOne ctx0 argsSecretsFile
    ((get_k8s_rg fsSecretsOne ctx0 argsSecretsFile).1.getD
      ⟨"", false, [], none, [], []⟩) (by decide)).2
    [("REDIS_PASSWORD", "x")] (by decide)
